/-
Verification of the game logic in `src/app.py` ("Funnay Frenzy", the desktop
tkinter variant of this repository).

The Python class `FunnayFrenzy` is shallowly embedded: its mutable fields
become the `GameState` structure, and each method that touches game state
becomes a pure function `GameState → ... → GameState`.  Python floats are
modelled as exact rationals (ℚ); Python ints as ℤ.  Calls to `random.*`,
`time.perf_counter()` (`now()`), and canvas-item allocation are external
inputs, so they are passed in explicitly through environment structures
(`SpawnEnv`, `TickEnv`); the well-formedness predicates `SpawnEnv.WF` /
`TickEnv.WF` record exactly the ranges the `random.uniform` / `random.random`
calls guarantee.  All tkinter canvas drawing is rendering with no feedback
into game state and is dropped, with one exception: `canvas.coords` inside
`_game_loop` can raise `TclError` for an already-deleted item, which feeds
back into the `to_remove` list, so the tick environment carries a `tclErr`
oracle for it.
-/
import Mathlib

set_option autoImplicit false

/-! ## Configuration constants (src/app.py lines 29-40) -/

def WINDOW_W : ℚ := 800
def WINDOW_H : ℚ := 600
def GAME_DURATION : ℚ := 30
def INITIAL_POP_INTERVAL : ℚ := 1
def MIN_POP_INTERVAL : ℚ := 1/4
def POP_DECAY : ℚ := 92/100
def MAX_ACTIVE : ℕ := 8
def MOLE_MIN_RADIUS : ℚ := 18
def MOLE_MAX_RADIUS : ℚ := 44
def BOMB_PROB_START : ℚ := 8/100
def BOMB_PROB_MAX : ℚ := 1/4

/-! ## Utilities -/

/-- `clamp(v, a, b) = max(a, min(b, v))` (src/app.py lines 45-46). -/
def clamp (v a b : ℚ) : ℚ := max a (min b v)

/-- Python `int()` applied to a float: truncation toward zero. -/
def pyInt (q : ℚ) : ℤ := if q < 0 then -⌊-q⌋ else ⌊q⌋

/-! ## The Mole dataclass (src/app.py lines 54-66) -/

structure Mole where
  id_canvas : ℕ
  x : ℚ
  y : ℚ
  r : ℚ
  color : String
  born : ℚ
  lifetime : ℚ
  vx : ℚ
  vy : ℚ
  is_bomb : Bool
  wobble_phase : ℚ
deriving DecidableEq, Repr

/-! ## Game state: the mutable fields of class FunnayFrenzy.

`__init__` (lines 77-89) sets `start_time = None` and `end_time = None`;
they are modelled as `0` here because no operation reads them before
`_start_game` assigns real values (every reader is guarded by `running`,
which only `_start_game` sets to true).  The tkinter widget fields and
`display_items` are rendering only and are not part of the state. -/

structure GameState where
  running : Bool
  paused : Bool
  score : ℤ
  start_time : ℚ
  end_time : ℚ
  remaining : ℚ
  moles : List Mole
  next_spawn : ℚ
  pop_interval : ℚ
  bomb_prob : ℚ
  highscore : ℤ
  round : ℤ
  last_time : ℚ
deriving DecidableEq, Repr

/-- State after `__init__` (src/app.py lines 77-89): `hs` is the value
`_load_highscore()` returned and `t0` the `now()` stored into `last_time`. -/
def initState (hs : ℤ) (t0 : ℚ) : GameState :=
  { running := false
    paused := false
    score := 0
    start_time := 0
    end_time := 0
    remaining := GAME_DURATION
    moles := []
    next_spawn := 0
    pop_interval := INITIAL_POP_INTERVAL
    bomb_prob := BOMB_PROB_START
    highscore := hs
    round := 1
    last_time := t0 }

/-! ## High score persistence (src/app.py lines 98-112)

`_load_highscore` wraps everything in `try/except: return 0`; the possible
outcomes of the file system are an inductive.  Python's builtin `int(...)`
is a library call, passed in as an oracle `intParse` that returns `none`
when `int()` would raise `ValueError` (the malformed case). -/

inductive ReadOutcome where
  | missing : ReadOutcome
  | ioError : ReadOutcome
  | content : String → ReadOutcome

inductive WriteOutcome where
  | ok : WriteOutcome
  | failure : WriteOutcome

/-- `_load_highscore` (lines 98-105): missing file or any raised exception
gives 0; otherwise `int(f.read().strip() or "0")`, with a `ValueError`
from `int()` also caught and turned into 0. -/
def load_highscore (intParse : String → Option ℤ) (f : ReadOutcome) : ℤ :=
  match f with
  | .missing => 0
  | .ioError => 0
  | .content body =>
      let t := body.trim
      let t := if t = "" then "0" else t
      (intParse t).getD 0

/-- `_save_highscore` (lines 107-112): writes `self.highscore` to a file and
swallows any exception; it assigns no Python attribute, so the in-memory
state is returned unchanged whatever the write outcome. -/
def save_highscore (_w : WriteOutcome) (s : GameState) : GameState := s

/-! ## Game control -/

/-- `_start_game` (src/app.py lines 213-230): deletes every mole, then resets
score, timers, spawn pacing, difficulty and round; `t` is the `now()` read
for `start_time` / `last_time`. -/
def start_game (s : GameState) (t : ℚ) : GameState :=
  { s with
    moles := []
    running := true
    paused := false
    score := 0
    start_time := t
    end_time := t + GAME_DURATION
    remaining := GAME_DURATION
    next_spawn := 2/10
    pop_interval := INITIAL_POP_INTERVAL
    bomb_prob := BOMB_PROB_START
    round := 1
    last_time := t }

/-- `_toggle_pause` (src/app.py lines 232-241); `t` is the `now()` read on
resume (the source reads `now()` twice; both reads are the same instant up
to clock resolution and are modelled by one value). -/
def toggle_pause (s : GameState) (t : ℚ) : GameState :=
  if !s.running then s
  else if s.paused then
    { s with
      paused := false
      end_time := s.end_time + (t - s.last_time)
      last_time := t }
  else
    { s with paused := true }

/-! ## Spawn environment: the random draws inside `_spawn_mole`. -/

structure SpawnEnv where
  /-- canvas id returned by `create_oval` for the body; keys the mole. -/
  oval : ℕ
  /-- `random.uniform(MOLE_MIN_RADIUS, MOLE_MAX_RADIUS)` -/
  r : ℚ
  /-- `random.uniform(r+8, WINDOW_W - r-8)` -/
  x : ℚ
  /-- `random.uniform(40 + r, WINDOW_H - r - 40)` -/
  y : ℚ
  /-- `random.uniform(1.2, 2.4)` -/
  lifespanBase : ℚ
  /-- `random.random()` compared against the clamped bomb probability -/
  bombRoll : ℚ
  /-- `random.choice(palette)` -/
  palette : String
  /-- `cos(angle) * speed` with random angle and speed -/
  vx : ℚ
  /-- `sin(angle) * speed` -/
  vy : ℚ
  /-- `random.random()*10` -/
  wobble : ℚ
  /-- the `now()` stored into `born` -/
  t : ℚ

/-- The ranges that `random.uniform` / `random.random` guarantee for the
draws in `_spawn_mole` (src/app.py lines 253-284). -/
def SpawnEnv.WF (e : SpawnEnv) : Prop :=
  MOLE_MIN_RADIUS ≤ e.r ∧ e.r ≤ MOLE_MAX_RADIUS ∧
  e.r + 8 ≤ e.x ∧ e.x ≤ WINDOW_W - e.r - 8 ∧
  40 + e.r ≤ e.y ∧ e.y ≤ WINDOW_H - e.r - 40 ∧
  12/10 ≤ e.lifespanBase ∧ e.lifespanBase ≤ 24/10 ∧
  0 ≤ e.bombRoll ∧ e.bombRoll < 1 ∧
  0 ≤ e.wobble ∧ e.wobble < 10

instance (e : SpawnEnv) : Decidable e.WF := by
  unfold SpawnEnv.WF
  infer_instance

/-- Python-dict insertion `self.moles[oval] = m`: replaces in place if the
key exists (keeping its position, as Python dicts do), else appends. -/
def dictInsert (ms : List Mole) (m : Mole) : List Mole :=
  if ms.any (fun x => x.id_canvas == m.id_canvas) then
    ms.map (fun x => if x.id_canvas == m.id_canvas then m else x)
  else ms ++ [m]

/-- The mole built inside `_spawn_mole` (src/app.py lines 253-284):
`lifespan = uniform(1.2,2.4) * max(0.5, 1 - (round-1)*0.05)`;
`is_bomb = random.random() < clamp(bomb_prob, 0, BOMB_PROB_MAX)`; bombs are
black, critters take the palette draw; `born = now()`. -/
def spawned_mole (s : GameState) (e : SpawnEnv) : Mole :=
  let lifespan := e.lifespanBase * max (1/2) (1 - ((s.round : ℚ) - 1) * (5/100))
  let isb : Bool := decide (e.bombRoll < clamp s.bomb_prob 0 BOMB_PROB_MAX)
  let col := if isb then "#111111" else e.palette
  { id_canvas := e.oval
    x := e.x
    y := e.y
    r := e.r
    color := col
    born := e.t
    lifetime := lifespan
    vx := e.vx
    vy := e.vy
    is_bomb := isb
    wobble_phase := e.wobble }

/-- `_spawn_mole` (src/app.py lines 249-285): a no-op at `MAX_ACTIVE` or more
active moles, otherwise stores the freshly built mole under its canvas id. -/
def spawn_mole (s : GameState) (e : SpawnEnv) : GameState :=
  if MAX_ACTIVE ≤ s.moles.length then s
  else { s with moles := dictInsert s.moles (spawned_mole s e) }

/-- `_remove_mole` (src/app.py lines 287-301): deletes the canvas group and
the dict entry; when the id is absent the dict is left untouched. -/
def remove_mole (s : GameState) (cid : ℕ) : GameState :=
  { s with moles := s.moles.filter (fun m => m.id_canvas != cid) }

/-- `_on_mole_click` (src/app.py lines 303-324): ignored unless running and
unpaused and the id is a live mole; a bomb does `score = max(0, score - 7)`,
a critter does `score += int(1 + r/10)`; then the mole is removed,
`pop_interval` shrinks by 2% (floored) and `bomb_prob` grows by 0.003
(capped). -/
def on_mole_click (s : GameState) (cid : ℕ) : GameState :=
  if !s.running || s.paused then s
  else
    match s.moles.find? (fun m => m.id_canvas == cid) with
    | none => s
    | some m =>
      let s1 := if m.is_bomb then { s with score := max 0 (s.score - 7) }
                else { s with score := s.score + pyInt (1 + m.r / 10) }
      let s2 := remove_mole s1 cid
      { s2 with
        pop_interval := max MIN_POP_INTERVAL (s2.pop_interval * (98/100))
        bomb_prob := min BOMB_PROB_MAX (s2.bomb_prob + 3/1000) }

/-- `_on_click` (src/app.py lines 350-357), the background-click binding:
early return while not running or paused, otherwise `score = max(0, score - 0)`. -/
def on_click (s : GameState) : GameState :=
  if !s.running || s.paused then s
  else { s with score := max 0 (s.score - 0) }

/-! ## The game loop tick (src/app.py lines 362-479) -/

/-- The per-tick external inputs of `_game_loop`. -/
structure TickEnv where
  /-- the `now()` read at the top of the tick -/
  now_t : ℚ
  /-- random draws consumed if a spawn fires this tick -/
  spawn : SpawnEnv
  /-- `random.uniform(-0.25, 0.25)` for the next-spawn jitter -/
  jitter : ℚ
  /-- whether `canvas.coords` raises `TclError` for a given mole id
  (an already-deleted canvas item, src/app.py lines 442-445) -/
  tclErr : ℕ → Bool

/-- Ranges guaranteed by the random draws of one tick. -/
def TickEnv.WF (e : TickEnv) : Prop :=
  e.spawn.WF ∧ -(1/4) ≤ e.jitter ∧ e.jitter ≤ 1/4

instance (e : TickEnv) : Decidable e.WF := by
  unfold TickEnv.WF
  infer_instance

/-- `self.remaining = max(0.0, self.end_time - now_t)` (line 370). -/
def tick_timers (s : GameState) (now_t : ℚ) : GameState :=
  { s with remaining := max 0 (s.end_time - now_t) }

/-- Spawn logic (src/app.py lines 372-377): `next_spawn -= dt`; on reaching
zero, spawn and reschedule with `clamp(pop_interval + jitter*pop_interval,
MIN_POP_INTERVAL, INITIAL_POP_INTERVAL*2)`. -/
def tick_spawn (s : GameState) (e : TickEnv) (dt : ℚ) : GameState :=
  let ns := s.next_spawn - dt
  if ns ≤ 0 then
    let s1 := spawn_mole { s with next_spawn := ns } e.spawn
    let jittered := clamp (s1.pop_interval + e.jitter * s1.pop_interval)
      MIN_POP_INTERVAL (INITIAL_POP_INTERVAL * 2)
    { s1 with next_spawn := jittered }
  else { s with next_spawn := ns }

/-- In-place drift, wobble-phase advance and wall bounces for one mole
(src/app.py lines 383-400); the four bounce tests run in source order on the
already-drifted coordinates. -/
def move_mole (rnd : ℤ) (dt : ℚ) (m : Mole) : Mole :=
  let k := 1 + ((rnd : ℚ) - 1) * (2/100)
  let m1 :=
    { m with
      wobble_phase := m.wobble_phase + dt * 6
      x := m.x + m.vx * k * dt * 60
      y := m.y + m.vy * k * dt * 60 }
  let m2 := if m1.x - m1.r < 4 then { m1 with x := m1.r + 4, vx := -m1.vx } else m1
  let m3 := if m2.x + m2.r > WINDOW_W - 4 then
      { m2 with x := WINDOW_W - m2.r - 4, vx := -m2.vx } else m2
  let m4 := if m3.y - m3.r < 30 then { m3 with y := m3.r + 30, vy := -m3.vy } else m3
  if m4.y + m4.r > WINDOW_H - 30 then
    { m4 with y := WINDOW_H - m4.r - 30, vy := -m4.vy }
  else m4

/-- All moles drift (src/app.py lines 380-400). -/
def tick_move (s : GameState) (dt : ℚ) : GameState :=
  { s with moles := s.moles.map (move_mole s.round dt) }

/-- The ids collected into `to_remove` (src/app.py lines 442-448): a mole
whose canvas item raised `TclError`, or whose `age = now_t - born` exceeds
its lifetime. -/
def aged_ids (s : GameState) (e : TickEnv) : List ℕ :=
  (s.moles.filter
    (fun m => e.tclErr m.id_canvas || decide (m.lifetime < e.now_t - m.born))).map
    (fun m => m.id_canvas)

/-- Body of the removal loop (src/app.py lines 450-455): a present non-bomb
mole costs `score = max(0, score - 1)`, then `_remove_mole(cid)`. -/
def removal_step (st : GameState) (cid : ℕ) : GameState :=
  let st1 := match st.moles.find? (fun m => m.id_canvas == cid) with
    | some m => if m.is_bomb then st else { st with score := max 0 (st.score - 1) }
    | none => st
  remove_mole st1 cid

/-- The removal loop `for cid in to_remove` (src/app.py lines 450-455). -/
def process_removals (s : GameState) (ids : List ℕ) : GameState :=
  ids.foldl removal_step s

/-- Difficulty scaling (src/app.py lines 458-463):
`target_round = int(elapsed // 6) + 1`; on a round increase, pop interval
decays by `POP_DECAY` (floored at `MIN_POP_INTERVAL`) and bomb probability
gains 0.02 (capped at `BOMB_PROB_MAX`). -/
def tick_difficulty (s : GameState) (now_t : ℚ) : GameState :=
  let target : ℤ := ⌊(now_t - s.start_time) / 6⌋ + 1
  if s.round < target then
    { s with
      round := target
      pop_interval := max MIN_POP_INTERVAL (s.pop_interval * POP_DECAY)
      bomb_prob := min BOMB_PROB_MAX (s.bomb_prob + 2/100) }
  else s

/-- End check (src/app.py lines 465-476): when the clock has run out, stop
running, clear all moles and record a new high score.  (`_save_highscore`
and `_show_gameover` are I/O and rendering.) -/
def tick_end (s : GameState) : GameState :=
  if s.remaining ≤ 0 then
    { s with
      running := false
      moles := []
      highscore := if s.highscore < s.score then s.score else s.highscore }
  else s

/-- The state reached just before the removal loop: timers, spawn and drift
(src/app.py lines 365-400).  `dt = now_t - last_time` uses the previous
tick's `last_time`, which is then overwritten. -/
def pre_removal (s : GameState) (e : TickEnv) : GameState :=
  let dt := e.now_t - s.last_time
  tick_move (tick_spawn (tick_timers { s with last_time := e.now_t } e.now_t) e dt) dt

/-- One call of `_game_loop` (src/app.py lines 362-479).  `if not
self.running: return` comes first; a paused tick still refreshes
`last_time` (lines 365-367) but changes nothing else; otherwise the phases
run in source order: timers, spawn, move, removal, difficulty, end check.
The `root.after(16, ...)` rescheduling is the driver, not state. -/
def game_loop (s : GameState) (e : TickEnv) : GameState :=
  if !s.running then s
  else if s.paused then { s with last_time := e.now_t }
  else
    tick_end (tick_difficulty
      (process_removals (pre_removal s e) (aged_ids (pre_removal s e) e)) e.now_t)

/-! ## Reachable states and play steps -/

/-- States the program can actually be in: the state after `__init__`, closed
under the user-triggered operations, with tick environments ranged as the
random library guarantees. -/
inductive Reachable : GameState → Prop where
  | init (hs : ℤ) (t0 : ℚ) : Reachable (initState hs t0)
  | start (s : GameState) (t : ℚ) : Reachable s → Reachable (start_game s t)
  | pause (s : GameState) (t : ℚ) : Reachable s → Reachable (toggle_pause s t)
  | tick (s : GameState) (e : TickEnv) : e.WF → Reachable s → Reachable (game_loop s e)
  | moleClick (s : GameState) (cid : ℕ) : Reachable s → Reachable (on_mole_click s cid)
  | bgClick (s : GameState) : Reachable s → Reachable (on_click s)

/-- One tick or one click resolution (the steps quantified over by the
difficulty-curve claim). -/
inductive PlayStep : GameState → GameState → Prop where
  | tick (s : GameState) (e : TickEnv) : PlayStep s (game_loop s e)
  | moleClick (s : GameState) (cid : ℕ) : PlayStep s (on_mole_click s cid)
  | bgClick (s : GameState) : PlayStep s (on_click s)

/-- A finite sequence of ticks and click resolutions. -/
def PlayChain : GameState → GameState → Prop := Relation.ReflTransGen PlayStep

/-- The difficulty bounds: `pop_interval` at or above its floor, `bomb_prob`
at or below its cap. -/
def DiffInv (s : GameState) : Prop :=
  MIN_POP_INTERVAL ≤ s.pop_interval ∧ s.bomb_prob ≤ BOMB_PROB_MAX

/-- The state invariant maintained by every reachable state: score is never
negative, at most `MAX_ACTIVE` moles are active, every stored mole has a
nonnegative radius, and the difficulty bounds hold. -/
def GameInv (s : GameState) : Prop :=
  0 ≤ s.score ∧ s.moles.length ≤ MAX_ACTIVE ∧
  (∀ m ∈ s.moles, 0 ≤ m.r) ∧ DiffInv s

/-! ## The spec-modelled variant with lives and a player paddle

`src/app.py` is the desktop variant: it has no lives counter and no player
paddle (the round ends when the 30-second clock runs out, and the player is
the mouse cursor).  The repository's spec describes three further variants
(terminal and browser-dashboard) that are not under `src/`; those carry the
lives / player-position round state.  The definitions below are the model of
that missing code, taken from the spec's words only. -/

/-- Modelled from the spec: a `FallingObject` of the variants not under
`src/` — attributes `x` (lane/column), `y` (row/depth) and `kind`
(hazard | reward). -/
structure SpecObj where
  x : ℤ
  y : ℤ
  hazard : Bool
deriving DecidableEq, Repr

/-- Modelled from the spec: the `RoundState` (plus play-field geometry and
`PlayerState`) of the variants not under `src/` — score, lives (terminal at
zero), the player's horizontal position, the active object set, and the
round-ended flag. -/
structure SpecRound where
  width : ℤ
  height : ℤ
  player : ℤ
  score : ℤ
  lives : ℤ
  ended : Bool
  objects : List SpecObj
deriving DecidableEq, Repr

/-- Modelled from the spec: boundary resolution for one object that passed
the bottom row — "if its horizontal position exactly matches the player's
position at that moment, resolve a collision — hazard decrements lives by
one, reward increments score by a fixed amount (3 points)"; lives are
clamped at zero ("lives never go negative").  A non-matching object is
simply discarded. -/
def specResolve (r : SpecRound) (o : SpecObj) : SpecRound :=
  if o.x = r.player then
    if o.hazard then { r with lives := max 0 (r.lives - 1) }
    else { r with score := r.score + 3 }
  else r

/-- Modelled from the spec: one tick of the variants not under `src/` —
"no further ticks are processed" once the round has ended; otherwise every
object advances one row, objects reaching the bottom row are removed and
resolved, and "if lives reach zero, mark the round as ended". -/
def specTick (r : SpecRound) : SpecRound :=
  if r.ended then r
  else
    let advanced := r.objects.map (fun o => { o with y := o.y + 1 })
    let landed := advanced.filter (fun o => decide (r.height ≤ o.y))
    let kept := advanced.filter (fun o => decide (o.y < r.height))
    let r1 := landed.foldl specResolve { r with objects := kept }
    if r1.lives ≤ 0 then { r1 with ended := true } else r1

/-- Modelled from the spec: the reset of the variants not under `src/` —
"Reset restores score to 0, lives to the initial count (3), player position
to the horizontal center, and the object set to empty." -/
def specReset (r : SpecRound) : SpecRound :=
  { r with
    score := 0
    lives := 3
    player := r.width / 2
    objects := []
    ended := false }

/-! ## Concrete sample data used by witnesses and counterexamples -/

/-- A freshly started game at time 0 (highscore file read 0). -/
def startedState : GameState := start_game (initState 0 0) 0

/-- A plausible mid-game critter: the smallest spawnable radius 18. -/
def sampleMole : Mole :=
  { id_canvas := 1
    x := 100
    y := 300
    r := 18
    color := "#ff6b6b"
    born := 0
    lifetime := 3/2
    vx := 0
    vy := 0
    is_bomb := false
    wobble_phase := 0 }

/-- A running, unpaused state holding `sampleMole`, as reached by a fresh
game after its first spawn. -/
def sampleState : GameState :=
  { startedState with moles := [sampleMole], next_spawn := 10, last_time := 1 }

/-- A tick environment at time 2: dt = 1, no spawn due (next_spawn stays
positive), no canvas errors; `sampleMole` is then 2s old with a 1.5s
lifetime, so it escapes during this tick. -/
def sampleTickEnv : TickEnv :=
  { now_t := 2
    spawn :=
      { oval := 2
        r := 20
        x := 200
        y := 200
        lifespanBase := 2
        bombRoll := 1/2
        palette := "#ffe66d"
        vx := 0
        vy := 0
        wobble := 0
        t := 2 }
    jitter := 0
    tclErr := fun _ => false }

/-- A paused state, for the paused-click claims. -/
def pausedState : GameState := { sampleState with paused := true }

/-- A spec-modelled round in progress (terminal-variant geometry from the
spec's example: width 24, player at 12) on its last life, with a hazard one
row above the bottom boundary. -/
def sampleSpecRound : SpecRound :=
  { width := 24
    height := 20
    player := 12
    score := 5
    lives := 1
    ended := false
    objects := [{ x := 12, y := 19, hazard := true }] }

/-- A state already holding `MAX_ACTIVE` moles (canvas ids 1 to 8). -/
def fullState : GameState :=
  { sampleState with
    moles := (List.range MAX_ACTIVE).map (fun i => { sampleMole with id_canvas := i + 1 }) }

/-! # Theorems

First a layer of frame lemmas describing which fields each operation
touches, then the claim theorems. -/

theorem pyInt_nonneg {q : ℚ} (h : 0 ≤ q) : 0 ≤ pyInt q := by
  unfold pyInt
  rw [if_neg (not_lt.2 h)]
  exact Int.floor_nonneg.2 h

theorem pyInt_eq_floor {q : ℚ} (h : 0 ≤ q) : pyInt q = ⌊q⌋ := by
  unfold pyInt
  rw [if_neg (not_lt.2 h)]

/-! ## dictInsert -/

theorem dictInsert_length (ms : List Mole) (m : Mole) :
    (dictInsert ms m).length ≤ ms.length + 1 := by
  unfold dictInsert
  split
  · simp
  · simp

theorem dictInsert_mem (ms : List Mole) (m x : Mole) (h : x ∈ dictInsert ms m) :
    x ∈ ms ∨ x = m := by
  unfold dictInsert at h
  split at h
  · rcases List.mem_map.1 h with ⟨y, hy, hxy⟩
    cases hid : y.id_canvas == m.id_canvas
    · left
      rw [hid] at hxy
      simp at hxy
      rwa [← hxy]
    · right
      rw [hid] at hxy
      simp at hxy
      exact hxy.symm
  · rcases List.mem_append.1 h with h | h
    · left; exact h
    · right; simpa using h

/-! ## remove_mole and the removal loop -/

theorem removal_step_moles (st : GameState) (cid : ℕ) :
    (removal_step st cid).moles = st.moles.filter (fun m => m.id_canvas != cid) := by
  unfold removal_step remove_mole
  cases st.moles.find? (fun m => m.id_canvas == cid) with
  | none => rfl
  | some m =>
    by_cases hb : m.is_bomb = true
    · simp [hb]
    · simp [hb]

theorem removal_step_pop (st : GameState) (cid : ℕ) :
    (removal_step st cid).pop_interval = st.pop_interval := by
  unfold removal_step remove_mole
  cases st.moles.find? (fun m => m.id_canvas == cid) with
  | none => rfl
  | some m =>
    by_cases hb : m.is_bomb = true
    · simp [hb]
    · simp [hb]

theorem removal_step_bomb_prob (st : GameState) (cid : ℕ) :
    (removal_step st cid).bomb_prob = st.bomb_prob := by
  unfold removal_step remove_mole
  cases st.moles.find? (fun m => m.id_canvas == cid) with
  | none => rfl
  | some m =>
    by_cases hb : m.is_bomb = true
    · simp [hb]
    · simp [hb]

theorem removal_step_score_cases (st : GameState) (cid : ℕ) :
    (removal_step st cid).score = st.score ∨
    (removal_step st cid).score = max 0 (st.score - 1) := by
  unfold removal_step remove_mole
  cases st.moles.find? (fun m => m.id_canvas == cid) with
  | none => left; rfl
  | some m =>
    by_cases hb : m.is_bomb = true
    · left; simp [hb]
    · right; simp [hb]

theorem process_removals_cons (st : GameState) (a : ℕ) (tl : List ℕ) :
    process_removals st (a :: tl) = process_removals (removal_step st a) tl := rfl

theorem process_removals_pop (ids : List ℕ) : ∀ st : GameState,
    (process_removals st ids).pop_interval = st.pop_interval := by
  induction ids with
  | nil => intro st; rfl
  | cons a tl ih =>
    intro st
    rw [process_removals_cons, ih, removal_step_pop]

theorem process_removals_bomb_prob (ids : List ℕ) : ∀ st : GameState,
    (process_removals st ids).bomb_prob = st.bomb_prob := by
  induction ids with
  | nil => intro st; rfl
  | cons a tl ih =>
    intro st
    rw [process_removals_cons, ih, removal_step_bomb_prob]

theorem process_removals_score_nonneg (ids : List ℕ) : ∀ st : GameState,
    0 ≤ st.score → 0 ≤ (process_removals st ids).score := by
  induction ids with
  | nil => intro st h; exact h
  | cons a tl ih =>
    intro st h
    rw [process_removals_cons]
    refine ih _ ?_
    rcases removal_step_score_cases st a with hs | hs
    · rw [hs]; exact h
    · rw [hs]; exact le_max_left 0 _

theorem process_removals_moles_sub (ids : List ℕ) : ∀ (st : GameState) (m : Mole),
    m ∈ (process_removals st ids).moles → m ∈ st.moles := by
  induction ids with
  | nil => intro st m h; exact h
  | cons a tl ih =>
    intro st m h
    rw [process_removals_cons] at h
    have h2 := ih _ m h
    rw [removal_step_moles] at h2
    exact (List.mem_filter.1 h2).1

theorem process_removals_length (ids : List ℕ) : ∀ st : GameState,
    (process_removals st ids).moles.length ≤ st.moles.length := by
  induction ids with
  | nil => intro st; exact le_rfl
  | cons a tl ih =>
    intro st
    rw [process_removals_cons]
    refine le_trans (ih _) ?_
    rw [removal_step_moles]
    exact List.length_filter_le _ _

theorem process_removals_not_mem (ids : List ℕ) : ∀ (st : GameState) (cid : ℕ),
    cid ∈ ids → ∀ m ∈ (process_removals st ids).moles, m.id_canvas ≠ cid := by
  induction ids with
  | nil => intro st cid h; cases h
  | cons a tl ih =>
    intro st cid hmem m hm
    rw [process_removals_cons] at hm
    rcases List.mem_cons.1 hmem with rfl | htl
    · have hsub := process_removals_moles_sub tl _ m hm
      rw [removal_step_moles] at hsub
      have := (List.mem_filter.1 hsub).2
      simpa using this
    · exact ih _ cid htl m hm

/-! ## spawn_mole -/

theorem spawn_mole_full (s : GameState) (e : SpawnEnv)
    (h : MAX_ACTIVE ≤ s.moles.length) : spawn_mole s e = s := by
  unfold spawn_mole
  rw [if_pos h]

theorem spawn_mole_pop (s : GameState) (e : SpawnEnv) :
    (spawn_mole s e).pop_interval = s.pop_interval := by
  unfold spawn_mole
  split
  · rfl
  · rfl

theorem spawn_mole_bomb_prob (s : GameState) (e : SpawnEnv) :
    (spawn_mole s e).bomb_prob = s.bomb_prob := by
  unfold spawn_mole
  split
  · rfl
  · rfl

theorem spawn_mole_score (s : GameState) (e : SpawnEnv) :
    (spawn_mole s e).score = s.score := by
  unfold spawn_mole
  split
  · rfl
  · rfl

theorem spawn_mole_length (s : GameState) (e : SpawnEnv)
    (h : s.moles.length ≤ MAX_ACTIVE) :
    (spawn_mole s e).moles.length ≤ MAX_ACTIVE := by
  unfold spawn_mole
  split
  · exact h
  · next hfull =>
    have hlt : s.moles.length < MAX_ACTIVE := Nat.lt_of_not_le hfull
    have := dictInsert_length s.moles (spawned_mole s e)
    simp only []
    omega

theorem spawned_mole_r (s : GameState) (e : SpawnEnv) :
    (spawned_mole s e).r = e.r := rfl

theorem spawn_mole_r (s : GameState) (e : SpawnEnv) (hWF : e.WF)
    (hr : ∀ m ∈ s.moles, 0 ≤ m.r) :
    ∀ m ∈ (spawn_mole s e).moles, 0 ≤ m.r := by
  unfold spawn_mole
  split
  · exact hr
  · intro m hm
    simp only [] at hm
    rcases dictInsert_mem s.moles (spawned_mole s e) m hm with h | h
    · exact hr m h
    · rw [h, spawned_mole_r]
      have h18 := hWF.1
      have : (0:ℚ) ≤ MOLE_MIN_RADIUS := by norm_num [MOLE_MIN_RADIUS]
      linarith

/-! ## Tick phases -/

theorem tick_timers_pop (s : GameState) (t : ℚ) :
    (tick_timers s t).pop_interval = s.pop_interval := rfl

theorem tick_timers_bomb_prob (s : GameState) (t : ℚ) :
    (tick_timers s t).bomb_prob = s.bomb_prob := rfl

theorem tick_timers_score (s : GameState) (t : ℚ) :
    (tick_timers s t).score = s.score := rfl

theorem tick_timers_moles (s : GameState) (t : ℚ) :
    (tick_timers s t).moles = s.moles := rfl


theorem tick_spawn_pop (s : GameState) (e : TickEnv) (dt : ℚ) :
    (tick_spawn s e dt).pop_interval = s.pop_interval := by
  rw [tick_spawn]
  split
  · rw [spawn_mole_pop]
  · rfl

theorem tick_spawn_bomb_prob (s : GameState) (e : TickEnv) (dt : ℚ) :
    (tick_spawn s e dt).bomb_prob = s.bomb_prob := by
  rw [tick_spawn]
  split
  · rw [spawn_mole_bomb_prob]
  · rfl

theorem tick_spawn_score (s : GameState) (e : TickEnv) (dt : ℚ) :
    (tick_spawn s e dt).score = s.score := by
  rw [tick_spawn]
  split
  · rw [spawn_mole_score]
  · rfl

theorem tick_spawn_length (s : GameState) (e : TickEnv) (dt : ℚ)
    (h : s.moles.length ≤ MAX_ACTIVE) :
    (tick_spawn s e dt).moles.length ≤ MAX_ACTIVE := by
  rw [tick_spawn]
  split
  · exact spawn_mole_length _ e.spawn h
  · exact h

theorem tick_spawn_r (s : GameState) (e : TickEnv) (dt : ℚ) (hWF : e.WF)
    (hr : ∀ m ∈ s.moles, 0 ≤ m.r) :
    ∀ m ∈ (tick_spawn s e dt).moles, 0 ≤ m.r := by
  rw [tick_spawn]
  split
  · exact spawn_mole_r _ e.spawn hWF.1 hr
  · exact hr

theorem move_mole_r (rnd : ℤ) (dt : ℚ) (m : Mole) :
    (move_mole rnd dt m).r = m.r := by
  rw [move_mole]
  split_ifs <;> rfl

theorem tick_move_pop (s : GameState) (dt : ℚ) :
    (tick_move s dt).pop_interval = s.pop_interval := rfl

theorem tick_move_bomb_prob (s : GameState) (dt : ℚ) :
    (tick_move s dt).bomb_prob = s.bomb_prob := rfl

theorem tick_move_score (s : GameState) (dt : ℚ) :
    (tick_move s dt).score = s.score := rfl

theorem tick_move_length (s : GameState) (dt : ℚ) :
    (tick_move s dt).moles.length = s.moles.length := by
  rw [tick_move]
  exact List.length_map _ _

theorem tick_move_r (s : GameState) (dt : ℚ)
    (hr : ∀ m ∈ s.moles, 0 ≤ m.r) :
    ∀ m ∈ (tick_move s dt).moles, 0 ≤ m.r := by
  rw [tick_move]
  intro m hm
  simp only [List.mem_map] at hm
  rcases hm with ⟨y, hy, rfl⟩
  rw [move_mole_r]
  exact hr y hy

theorem tick_difficulty_pop_cases (s : GameState) (t : ℚ) :
    (tick_difficulty s t).pop_interval = s.pop_interval ∨
    (tick_difficulty s t).pop_interval =
      max MIN_POP_INTERVAL (s.pop_interval * POP_DECAY) := by
  rw [tick_difficulty]
  split
  · right; rfl
  · left; rfl

theorem tick_difficulty_bomb_prob_cases (s : GameState) (t : ℚ) :
    (tick_difficulty s t).bomb_prob = s.bomb_prob ∨
    (tick_difficulty s t).bomb_prob = min BOMB_PROB_MAX (s.bomb_prob + 2/100) := by
  rw [tick_difficulty]
  split
  · right; rfl
  · left; rfl

theorem tick_difficulty_score (s : GameState) (t : ℚ) :
    (tick_difficulty s t).score = s.score := by
  rw [tick_difficulty]
  split
  · rfl
  · rfl

theorem tick_difficulty_moles (s : GameState) (t : ℚ) :
    (tick_difficulty s t).moles = s.moles := by
  rw [tick_difficulty]
  split
  · rfl
  · rfl

theorem tick_end_pop (s : GameState) :
    (tick_end s).pop_interval = s.pop_interval := by
  rw [tick_end]
  split
  · rfl
  · rfl

theorem tick_end_bomb_prob (s : GameState) :
    (tick_end s).bomb_prob = s.bomb_prob := by
  rw [tick_end]
  split
  · rfl
  · rfl

theorem tick_end_score (s : GameState) :
    (tick_end s).score = s.score := by
  rw [tick_end]
  split
  · rfl
  · rfl

theorem tick_end_moles_cases (s : GameState) :
    (tick_end s).moles = [] ∨ (tick_end s).moles = s.moles := by
  rw [tick_end]
  split
  · left; rfl
  · right; rfl

/-! ## pre_removal -/

theorem pre_removal_pop (s : GameState) (e : TickEnv) :
    (pre_removal s e).pop_interval = s.pop_interval := by
  rw [pre_removal]
  rw [tick_move_pop, tick_spawn_pop]
  rfl

theorem pre_removal_bomb_prob (s : GameState) (e : TickEnv) :
    (pre_removal s e).bomb_prob = s.bomb_prob := by
  rw [pre_removal]
  rw [tick_move_bomb_prob, tick_spawn_bomb_prob]
  rfl

theorem pre_removal_score (s : GameState) (e : TickEnv) :
    (pre_removal s e).score = s.score := by
  rw [pre_removal]
  rw [tick_move_score, tick_spawn_score]
  rfl

theorem pre_removal_length (s : GameState) (e : TickEnv)
    (h : s.moles.length ≤ MAX_ACTIVE) :
    (pre_removal s e).moles.length ≤ MAX_ACTIVE := by
  rw [pre_removal]
  rw [tick_move_length]
  exact tick_spawn_length _ e _ h

theorem pre_removal_r (s : GameState) (e : TickEnv) (hWF : e.WF)
    (hr : ∀ m ∈ s.moles, 0 ≤ m.r) :
    ∀ m ∈ (pre_removal s e).moles, 0 ≤ m.r := by
  rw [pre_removal]
  exact tick_move_r _ _ (tick_spawn_r _ e _ hWF hr)

/-! ## game_loop characterizations -/

theorem game_loop_not_running (s : GameState) (e : TickEnv)
    (h : s.running = false) : game_loop s e = s := by
  rw [game_loop, h]
  rfl

theorem game_loop_paused (s : GameState) (e : TickEnv)
    (hr : s.running = true) (hp : s.paused = true) :
    game_loop s e = { s with last_time := e.now_t } := by
  rw [game_loop, hr, hp]
  rfl

theorem game_loop_main (s : GameState) (e : TickEnv)
    (hr : s.running = true) (hp : s.paused = false) :
    game_loop s e =
      tick_end (tick_difficulty
        (process_removals (pre_removal s e) (aged_ids (pre_removal s e) e))
        e.now_t) := by
  rw [game_loop, hr, hp]
  rfl

theorem game_loop_pop_cases (s : GameState) (e : TickEnv) :
    (game_loop s e).pop_interval = s.pop_interval ∨
    (game_loop s e).pop_interval =
      max MIN_POP_INTERVAL (s.pop_interval * POP_DECAY) := by
  cases hr : s.running with
  | false => left; rw [game_loop_not_running s e hr]
  | true =>
    cases hp : s.paused with
    | true => left; rw [game_loop_paused s e hr hp]
    | false =>
      rw [game_loop_main s e hr hp, tick_end_pop]
      rcases tick_difficulty_pop_cases
          (process_removals (pre_removal s e) (aged_ids (pre_removal s e) e))
          e.now_t with h | h <;>
        rw [h, process_removals_pop, pre_removal_pop]
      · left; rfl
      · right; rfl

theorem game_loop_bomb_prob_cases (s : GameState) (e : TickEnv) :
    (game_loop s e).bomb_prob = s.bomb_prob ∨
    (game_loop s e).bomb_prob = min BOMB_PROB_MAX (s.bomb_prob + 2/100) := by
  cases hr : s.running with
  | false => left; rw [game_loop_not_running s e hr]
  | true =>
    cases hp : s.paused with
    | true => left; rw [game_loop_paused s e hr hp]
    | false =>
      rw [game_loop_main s e hr hp, tick_end_bomb_prob]
      rcases tick_difficulty_bomb_prob_cases
          (process_removals (pre_removal s e) (aged_ids (pre_removal s e) e))
          e.now_t with h | h <;>
        rw [h, process_removals_bomb_prob, pre_removal_bomb_prob]
      · left; rfl
      · right; rfl

theorem game_loop_score_nonneg (s : GameState) (e : TickEnv)
    (h : 0 ≤ s.score) : 0 ≤ (game_loop s e).score := by
  cases hr : s.running with
  | false => rw [game_loop_not_running s e hr]; exact h
  | true =>
    cases hp : s.paused with
    | true => rw [game_loop_paused s e hr hp]; exact h
    | false =>
      rw [game_loop_main s e hr hp, tick_end_score, tick_difficulty_score]
      refine process_removals_score_nonneg _ _ ?_
      rw [pre_removal_score]
      exact h

theorem game_loop_length (s : GameState) (e : TickEnv)
    (h : s.moles.length ≤ MAX_ACTIVE) :
    (game_loop s e).moles.length ≤ MAX_ACTIVE := by
  cases hr : s.running with
  | false => rw [game_loop_not_running s e hr]; exact h
  | true =>
    cases hp : s.paused with
    | true => rw [game_loop_paused s e hr hp]; exact h
    | false =>
      rw [game_loop_main s e hr hp]
      rcases tick_end_moles_cases
          (tick_difficulty
            (process_removals (pre_removal s e) (aged_ids (pre_removal s e) e))
            e.now_t) with hm | hm <;> rw [hm]
      · simp
      · rw [tick_difficulty_moles]
        exact le_trans (process_removals_length _ _) (pre_removal_length s e h)

theorem game_loop_r (s : GameState) (e : TickEnv) (hWF : e.WF)
    (hr : ∀ m ∈ s.moles, 0 ≤ m.r) :
    ∀ m ∈ (game_loop s e).moles, 0 ≤ m.r := by
  cases hrun : s.running with
  | false => rw [game_loop_not_running s e hrun]; exact hr
  | true =>
    cases hp : s.paused with
    | true => rw [game_loop_paused s e hrun hp]; exact hr
    | false =>
      rw [game_loop_main s e hrun hp]
      rcases tick_end_moles_cases
          (tick_difficulty
            (process_removals (pre_removal s e) (aged_ids (pre_removal s e) e))
            e.now_t) with hm | hm <;> rw [hm]
      · intro m h
        cases h
      · rw [tick_difficulty_moles]
        intro m h
        exact pre_removal_r s e hWF hr m (process_removals_moles_sub _ _ m h)

/-! ## The click handlers -/

theorem on_mole_click_guard (s : GameState) (cid : ℕ)
    (h : s.running = false ∨ s.paused = true) : on_mole_click s cid = s := by
  rw [on_mole_click]
  rcases h with h | h <;> rw [h] <;> simp

theorem on_click_guard (s : GameState)
    (h : s.running = false ∨ s.paused = true) : on_click s = s := by
  rw [on_click]
  rcases h with h | h <;> rw [h] <;> simp

theorem on_mole_click_pop_cases (s : GameState) (cid : ℕ) :
    (on_mole_click s cid).pop_interval = s.pop_interval ∨
    (on_mole_click s cid).pop_interval =
      max MIN_POP_INTERVAL (s.pop_interval * (98/100)) := by
  rw [on_mole_click]
  split
  · left; rfl
  · cases hf : s.moles.find? (fun m => m.id_canvas == cid) with
    | none => left; rfl
    | some m =>
      right
      by_cases hb : m.is_bomb = true
      · simp [hb, remove_mole]
      · simp [hb, remove_mole]

theorem on_mole_click_bomb_prob_cases (s : GameState) (cid : ℕ) :
    (on_mole_click s cid).bomb_prob = s.bomb_prob ∨
    (on_mole_click s cid).bomb_prob = min BOMB_PROB_MAX (s.bomb_prob + 3/1000) := by
  rw [on_mole_click]
  split
  · left; rfl
  · cases hf : s.moles.find? (fun m => m.id_canvas == cid) with
    | none => left; rfl
    | some m =>
      right
      by_cases hb : m.is_bomb = true
      · simp [hb, remove_mole]
      · simp [hb, remove_mole]

theorem on_mole_click_score_nonneg (s : GameState) (cid : ℕ)
    (h0 : 0 ≤ s.score) (hr : ∀ m ∈ s.moles, 0 ≤ m.r) :
    0 ≤ (on_mole_click s cid).score := by
  rw [on_mole_click]
  split
  · exact h0
  · cases hf : s.moles.find? (fun m => m.id_canvas == cid) with
    | none => exact h0
    | some m =>
      have hm : m ∈ s.moles := List.mem_of_find?_eq_some hf
      by_cases hb : m.is_bomb = true
      · simp only [hb, if_true, remove_mole]
        exact le_max_left 0 _
      · simp only [hb, if_false, remove_mole, Bool.false_eq_true]
        have hq : (0:ℚ) ≤ 1 + m.r / 10 := by
          have := hr m hm
          have : (0:ℚ) ≤ m.r / 10 := by positivity
          linarith
        exact add_nonneg h0 (pyInt_nonneg hq)

theorem on_mole_click_moles_cases (s : GameState) (cid : ℕ) :
    (on_mole_click s cid).moles = s.moles ∨
    (on_mole_click s cid).moles = s.moles.filter (fun m => m.id_canvas != cid) := by
  rw [on_mole_click]
  split
  · left; rfl
  · cases hf : s.moles.find? (fun m => m.id_canvas == cid) with
    | none => left; rfl
    | some m =>
      right
      by_cases hb : m.is_bomb = true
      · simp [hb, remove_mole]
      · simp [hb, remove_mole]

theorem on_click_score (s : GameState) :
    (on_click s).score = s.score ∨ (on_click s).score = max 0 (s.score - 0) := by
  rw [on_click]
  split
  · left; rfl
  · right; rfl

theorem on_click_pop (s : GameState) :
    (on_click s).pop_interval = s.pop_interval := by
  rw [on_click]
  split
  · rfl
  · rfl

theorem on_click_bomb_prob (s : GameState) :
    (on_click s).bomb_prob = s.bomb_prob := by
  rw [on_click]
  split
  · rfl
  · rfl

theorem on_click_moles (s : GameState) :
    (on_click s).moles = s.moles := by
  rw [on_click]
  split
  · rfl
  · rfl

theorem toggle_pause_score (s : GameState) (t : ℚ) :
    (toggle_pause s t).score = s.score := by
  rw [toggle_pause]
  split
  · rfl
  · split
    · rfl
    · rfl

theorem toggle_pause_moles (s : GameState) (t : ℚ) :
    (toggle_pause s t).moles = s.moles := by
  rw [toggle_pause]
  split
  · rfl
  · split
    · rfl
    · rfl

theorem toggle_pause_pop (s : GameState) (t : ℚ) :
    (toggle_pause s t).pop_interval = s.pop_interval := by
  rw [toggle_pause]
  split
  · rfl
  · split
    · rfl
    · rfl

theorem toggle_pause_bomb_prob (s : GameState) (t : ℚ) :
    (toggle_pause s t).bomb_prob = s.bomb_prob := by
  rw [toggle_pause]
  split
  · rfl
  · split
    · rfl
    · rfl

/-! ## Difficulty monotonicity and the reachable-state invariant -/

theorem pop_update_le {pop c : ℚ} (hc1 : c ≤ 1) (h : MIN_POP_INTERVAL ≤ pop) :
    max MIN_POP_INTERVAL (pop * c) ≤ pop := by
  have h0 : (0:ℚ) ≤ pop := le_trans (by norm_num [MIN_POP_INTERVAL]) h
  exact max_le h (mul_le_of_le_one_right h0 hc1)

theorem bp_update_ge {bp c : ℚ} (hc : 0 ≤ c) (h : bp ≤ BOMB_PROB_MAX) :
    bp ≤ min BOMB_PROB_MAX (bp + c) := le_min h (by linarith)

theorem playStep_diff {s s' : GameState} (hstep : PlayStep s s') (hd : DiffInv s) :
    s'.pop_interval ≤ s.pop_interval ∧ s.bomb_prob ≤ s'.bomb_prob ∧ DiffInv s' := by
  obtain ⟨hpop, hbp⟩ := hd
  cases hstep with
  | tick e =>
    refine ⟨?_, ?_, ?_, ?_⟩
    · rcases game_loop_pop_cases s e with h | h
      · exact h.le
      · rw [h]
        exact pop_update_le (by norm_num [POP_DECAY]) hpop
    · rcases game_loop_bomb_prob_cases s e with h | h
      · exact h.ge
      · rw [h]
        exact bp_update_ge (by norm_num) hbp
    · rcases game_loop_pop_cases s e with h | h
      · rw [h]
        exact hpop
      · rw [h]
        exact le_max_left _ _
    · rcases game_loop_bomb_prob_cases s e with h | h
      · rw [h]
        exact hbp
      · rw [h]
        exact min_le_left _ _
  | moleClick cid =>
    refine ⟨?_, ?_, ?_, ?_⟩
    · rcases on_mole_click_pop_cases s cid with h | h
      · exact h.le
      · rw [h]
        exact pop_update_le (by norm_num) hpop
    · rcases on_mole_click_bomb_prob_cases s cid with h | h
      · exact h.ge
      · rw [h]
        exact bp_update_ge (by norm_num) hbp
    · rcases on_mole_click_pop_cases s cid with h | h
      · rw [h]
        exact hpop
      · rw [h]
        exact le_max_left _ _
    · rcases on_mole_click_bomb_prob_cases s cid with h | h
      · rw [h]
        exact hbp
      · rw [h]
        exact min_le_left _ _
  | bgClick =>
    refine ⟨(on_click_pop s).le, (on_click_bomb_prob s).ge, ?_, ?_⟩
    · rw [on_click_pop]
      exact hpop
    · rw [on_click_bomb_prob]
      exact hbp

theorem playChain_diff {s s' : GameState} (h : PlayChain s s') (hd : DiffInv s) :
    s'.pop_interval ≤ s.pop_interval ∧ s.bomb_prob ≤ s'.bomb_prob ∧ DiffInv s' := by
  induction h with
  | refl => exact ⟨le_rfl, le_rfl, hd⟩
  | tail hc hstep ih =>
    obtain ⟨h1, h2, hd2⟩ := ih
    obtain ⟨g1, g2, gd⟩ := playStep_diff hstep hd2
    exact ⟨le_trans g1 h1, le_trans h2 g2, gd⟩

theorem reachable_inv {s : GameState} (h : Reachable s) : GameInv s := by
  induction h with
  | init hs t0 =>
    refine ⟨le_rfl, ?_, ?_, ?_, ?_⟩
    · simp [initState, MAX_ACTIVE]
    · simp [initState]
    · norm_num [initState, MIN_POP_INTERVAL, INITIAL_POP_INTERVAL]
    · norm_num [initState, BOMB_PROB_START, BOMB_PROB_MAX]
  | start s t _ _ =>
    refine ⟨le_rfl, ?_, ?_, ?_, ?_⟩
    · simp [start_game, MAX_ACTIVE]
    · simp [start_game]
    · norm_num [start_game, MIN_POP_INTERVAL, INITIAL_POP_INTERVAL]
    · norm_num [start_game, BOMB_PROB_START, BOMB_PROB_MAX]
  | pause s t _ ih =>
    obtain ⟨h0, hlen, hr, hpop, hbp⟩ := ih
    rw [GameInv, toggle_pause_score, toggle_pause_moles, DiffInv,
      toggle_pause_pop, toggle_pause_bomb_prob]
    exact ⟨h0, hlen, hr, hpop, hbp⟩
  | tick s e hWF _ ih =>
    obtain ⟨h0, hlen, hr, hpop, hbp⟩ := ih
    refine ⟨game_loop_score_nonneg s e h0, game_loop_length s e hlen,
      game_loop_r s e hWF hr, ?_, ?_⟩
    · rcases game_loop_pop_cases s e with h | h <;> rw [h]
      · exact hpop
      · exact le_max_left _ _
    · rcases game_loop_bomb_prob_cases s e with h | h <;> rw [h]
      · exact hbp
      · exact min_le_left _ _
  | moleClick s cid _ ih =>
    obtain ⟨h0, hlen, hr, hpop, hbp⟩ := ih
    refine ⟨on_mole_click_score_nonneg s cid h0 hr, ?_, ?_, ?_, ?_⟩
    · rcases on_mole_click_moles_cases s cid with h | h <;> rw [h]
      · exact hlen
      · exact le_trans (List.length_filter_le _ _) hlen
    · rcases on_mole_click_moles_cases s cid with h | h <;> rw [h]
      · exact hr
      · intro m hm
        exact hr m (List.mem_filter.1 hm).1
    · rcases on_mole_click_pop_cases s cid with h | h <;> rw [h]
      · exact hpop
      · exact le_max_left _ _
    · rcases on_mole_click_bomb_prob_cases s cid with h | h <;> rw [h]
      · exact hbp
      · exact min_le_left _ _
  | bgClick s _ ih =>
    obtain ⟨h0, hlen, hr, hpop, hbp⟩ := ih
    rw [GameInv, on_click_moles, DiffInv, on_click_pop, on_click_bomb_prob]
    refine ⟨?_, hlen, hr, hpop, hbp⟩
    rcases on_click_score s with h | h <;> rw [h]
    · exact h0
    · exact le_max_left _ _

/-! ## Lemmas for the spec-modelled variant -/

theorem specResolve_lives_nonneg (r : SpecRound) (o : SpecObj) (h : 0 ≤ r.lives) :
    0 ≤ (specResolve r o).lives := by
  rw [specResolve]
  split
  · split
    · exact le_max_left 0 _
    · exact h
  · exact h

theorem specFold_lives_nonneg (os : List SpecObj) : ∀ r : SpecRound, 0 ≤ r.lives →
    0 ≤ (os.foldl specResolve r).lives := by
  induction os with
  | nil => intro r h; exact h
  | cons a tl ih =>
    intro r h
    exact ih _ (specResolve_lives_nonneg r a h)

theorem specTick_lives_nonneg (r : SpecRound) (h : 0 ≤ r.lives) :
    0 ≤ (specTick r).lives := by
  rw [specTick]
  split
  · exact h
  · dsimp only
    split
    · exact specFold_lives_nonneg _ _ h
    · exact specFold_lives_nonneg _ _ h

theorem specTick_zero_ended (r : SpecRound) (h : r.ended = false) :
    (specTick r).lives ≤ 0 → (specTick r).ended = true := by
  rw [specTick, h]
  simp only [Bool.false_eq_true, if_false]
  split
  · intro _
    rfl
  · next hgt =>
    intro hl
    exact absurd hl hgt

theorem specTick_ended_noop (r : SpecRound) (h : r.ended = true) : specTick r = r := by
  rw [specTick, h]
  rfl

/-! # Claim theorems -/

/-- C1, counterexample.  The claim says a click on a non-bomb mole increases
the score by exactly 3.  In `src/app.py` (line 317) the reward is
`int(1 + r/10)`, which depends on the mole's radius: in the concrete running,
unpaused state holding one non-bomb mole of (spawnable) radius 18, the click
awards 2 points, not 3. -/
theorem c1_counterexample :
    sampleState.running = true ∧ sampleState.paused = false ∧
    sampleMole.is_bomb = false ∧ sampleState.moles = [sampleMole] ∧
    MOLE_MIN_RADIUS ≤ sampleMole.r ∧ sampleMole.r ≤ MOLE_MAX_RADIUS ∧
    (on_mole_click sampleState 1).score = sampleState.score + 2 ∧
    ¬ (on_mole_click sampleState 1).score = sampleState.score + 3 := by
  refine ⟨rfl, rfl, rfl, rfl, by norm_num [sampleMole, MOLE_MIN_RADIUS],
    by norm_num [sampleMole, MOLE_MAX_RADIUS], ?_, ?_⟩ <;>
    norm_num [on_mole_click, sampleState, sampleMole, startedState, start_game,
      initState, pyInt, remove_mole, List.find?]

/-- C1, amended.  While the game is running and not paused, clicking a live
non-bomb mole increases the score by `int(1 + r/10)` — between 2 and 5
points over the spawnable radius range `[MOLE_MIN_RADIUS, MOLE_MAX_RADIUS]`,
not a fixed 3 — and clicking a bomb mole sets
`score := max(0, score - 7)`; this variant has no lives counter to
decrement (src/app.py lines 303-324). -/
theorem c1_amended_click (s : GameState) (cid : ℕ) (m : Mole)
    (hrun : s.running = true) (hp : s.paused = false)
    (hf : s.moles.find? (fun x => x.id_canvas == cid) = some m) :
    (m.is_bomb = false → (on_mole_click s cid).score = s.score + pyInt (1 + m.r / 10)) ∧
    (m.is_bomb = true → (on_mole_click s cid).score = max 0 (s.score - 7)) ∧
    (MOLE_MIN_RADIUS ≤ m.r → m.r ≤ MOLE_MAX_RADIUS →
      2 ≤ pyInt (1 + m.r / 10) ∧ pyInt (1 + m.r / 10) ≤ 5) := by
  refine ⟨?_, ?_, ?_⟩
  · intro hb
    rw [on_mole_click, hrun, hp]
    simp only [Bool.not_true, Bool.false_or, Bool.false_eq_true, if_false, hf, hb,
      remove_mole]
  · intro hb
    rw [on_mole_click, hrun, hp]
    simp only [Bool.not_true, Bool.false_or, Bool.false_eq_true, if_false, hf, hb,
      if_true, remove_mole]
  · intro h18 h44
    have hq0 : (0:ℚ) ≤ 1 + m.r / 10 := by
      norm_num [MOLE_MIN_RADIUS] at h18
      linarith
    rw [pyInt_eq_floor hq0]
    constructor
    · refine Int.le_floor.2 ?_
      push_cast
      norm_num [MOLE_MIN_RADIUS] at h18
      linarith
    · have h6 : ⌊(1 + m.r / 10 : ℚ)⌋ < 6 := by
        refine Int.floor_lt.2 ?_
        push_cast
        norm_num [MOLE_MAX_RADIUS] at h44
        linarith
      omega

/-- C1, witness: the amended theorem applied to the sample state (radius-18
critter, id 1). -/
theorem c1_witness :
    (on_mole_click sampleState 1).score = sampleState.score + pyInt (1 + sampleMole.r / 10) ∧
    2 ≤ pyInt (1 + sampleMole.r / 10) ∧ pyInt (1 + sampleMole.r / 10) ≤ 5 := by
  obtain ⟨h1, _, h3⟩ := c1_amended_click sampleState 1 sampleMole rfl rfl rfl
  exact ⟨h1 rfl, h3 (by norm_num [sampleMole, MOLE_MIN_RADIUS])
    (by norm_num [sampleMole, MOLE_MAX_RADIUS])⟩

/-- C2, counterexample.  The claim says an escaping (aged-out) non-bomb mole
penalizes the score by exactly 1.  The code clamps at zero
(`score = max(0, score - 1)`, src/app.py line 454): in a running, unpaused
state with score 0 whose only mole (non-bomb, 2s old, 1.5s lifetime) escapes
during the tick, the score stays 0 instead of dropping to -1. -/
theorem c2_counterexample :
    sampleState.score = 0 ∧ sampleState.running = true ∧ sampleState.paused = false ∧
    sampleMole.is_bomb = false ∧ sampleState.moles = [sampleMole] ∧
    sampleMole.lifetime < sampleTickEnv.now_t - sampleMole.born ∧
    (game_loop sampleState sampleTickEnv).moles = [] ∧
    (game_loop sampleState sampleTickEnv).score = 0 ∧
    ¬ (game_loop sampleState sampleTickEnv).score = sampleState.score - 1 := by
  refine ⟨rfl, rfl, rfl, rfl, rfl, by norm_num [sampleMole, sampleTickEnv], ?_, ?_, ?_⟩ <;>
    norm_num [game_loop, pre_removal, tick_timers, tick_spawn, tick_move, move_mole,
      aged_ids, process_removals, removal_step, remove_mole, spawn_mole, spawned_mole,
      tick_difficulty, tick_end, sampleState, sampleMole, sampleTickEnv, startedState,
      start_game, initState, clamp, dictInsert, List.find?, List.filter, List.foldl,
      List.map, GAME_DURATION, INITIAL_POP_INTERVAL, MIN_POP_INTERVAL, POP_DECAY,
      MAX_ACTIVE, WINDOW_W, WINDOW_H, BOMB_PROB_MAX]

/-- C2, amended.  When a mole escapes (its id enters the removal loop of
src/app.py lines 450-455), a non-bomb mole is penalized by 1 clamped below
at zero — `score := max(0, score - 1)` — while a bomb causes no score
change; in both cases the mole is removed from the active set. -/
theorem c2_amended_escape (st : GameState) (cid : ℕ) (m : Mole)
    (hf : st.moles.find? (fun x => x.id_canvas == cid) = some m) :
    (m.is_bomb = false → (removal_step st cid).score = max 0 (st.score - 1)) ∧
    (m.is_bomb = true → (removal_step st cid).score = st.score) ∧
    (removal_step st cid).moles = st.moles.filter (fun x => x.id_canvas != cid) := by
  refine ⟨?_, ?_, removal_step_moles st cid⟩
  · intro hb
    rw [removal_step, hf]
    simp only [hb, Bool.false_eq_true, if_false, remove_mole]
  · intro hb
    rw [removal_step, hf]
    simp only [hb, if_true, remove_mole]

/-- C2, witness: the amended theorem applied to the sample state at score 0:
the escaping critter leaves the score at `max 0 (0 - 1) = 0` and is removed. -/
theorem c2_witness :
    (removal_step sampleState 1).score = max 0 (sampleState.score - 1) ∧
    (removal_step sampleState 1).moles =
      sampleState.moles.filter (fun x => x.id_canvas != 1) := by
  obtain ⟨h1, _, h3⟩ := c2_amended_escape sampleState 1 sampleMole rfl
  exact ⟨h1 rfl, h3⟩

/-- C3: once the round is flagged ended (`running = false`), every subsequent
tick — and every other in-game operation — is a no-op leaving the whole
state (score, mole set, difficulty) unchanged, until `_start_game`
explicitly resets and sets `running` back to true (src/app.py lines 362-364,
465-476).  `src/app.py` itself has no lives counter (its round ends on the
timer), so the lives half of the claim is checked against the spec-modelled
variant: lives are clamped at zero, a tick of a non-ended round whose lives
hit zero flags the round ended, an ended round's tick is the identity, and
reset clears the ended flag. -/
theorem c3_ended_noop :
    (∀ (s : GameState) (e : TickEnv) (cid : ℕ) (t : ℚ), s.running = false →
      game_loop s e = s ∧ on_mole_click s cid = s ∧ on_click s = s ∧
      toggle_pause s t = s ∧ (start_game s t).running = true) ∧
    (∀ r : SpecRound,
      (0 ≤ r.lives → 0 ≤ (specTick r).lives) ∧
      (r.ended = false → (specTick r).lives ≤ 0 → (specTick r).ended = true) ∧
      (r.ended = true → specTick r = r) ∧
      (specReset r).ended = false) := by
  constructor
  · intro s e cid t h
    refine ⟨game_loop_not_running s e h, on_mole_click_guard s cid (Or.inl h),
      on_click_guard s (Or.inl h), ?_, rfl⟩
    rw [toggle_pause, h]
    rfl
  · intro r
    exact ⟨specTick_lives_nonneg r, specTick_zero_ended r, specTick_ended_noop r, rfl⟩

/-- C3, witness: a tick of the just-initialised (not yet running) state is
the identity, and the spec-modelled round on its last life is flagged ended
by the tick in which the hazard lands on the player. -/
theorem c3_witness :
    game_loop (initState 0 0) sampleTickEnv = initState 0 0 ∧
    (specTick sampleSpecRound).ended = true := by
  refine ⟨(c3_ended_noop.1 (initState 0 0) sampleTickEnv 0 0 rfl).1, ?_⟩
  exact (c3_ended_noop.2 sampleSpecRound).2.1 rfl (by decide)

/-- C4: starting a new game resets score to 0 and empties the active object
set (`_start_game`, src/app.py lines 213-230).  `src/app.py` has no lives
counter or player paddle, so those halves of the claim are checked against
the spec-modelled variant: reset restores lives to 3, the player to the
horizontal center `width / 2`, the score to 0 and the object set to empty. -/
theorem c4_reset (s : GameState) (t : ℚ) (r : SpecRound) :
    (start_game s t).score = 0 ∧ (start_game s t).moles = [] ∧
    (specReset r).score = 0 ∧ (specReset r).lives = 3 ∧
    (specReset r).player = r.width / 2 ∧ (specReset r).objects = [] :=
  ⟨rfl, rfl, rfl, rfl, rfl, rfl⟩

/-- C5: from any reachable state, along any sequence of ticks and click
resolutions the spawn interval is non-increasing and never drops below
`MIN_POP_INTERVAL`, and the bomb probability is non-decreasing and never
exceeds `BOMB_PROB_MAX` (src/app.py lines 321-323, 456-463). -/
theorem c5_difficulty_curve (s s' : GameState)
    (hs : Reachable s) (hchain : PlayChain s s') :
    s'.pop_interval ≤ s.pop_interval ∧ MIN_POP_INTERVAL ≤ s'.pop_interval ∧
    s.bomb_prob ≤ s'.bomb_prob ∧ s'.bomb_prob ≤ BOMB_PROB_MAX := by
  have hd : DiffInv s := (reachable_inv hs).2.2.2
  obtain ⟨h1, h2, hd'⟩ := playChain_diff hchain hd
  exact ⟨h1, hd'.1, h2, hd'.2⟩

/-- C5, witness: one click resolution from a freshly started game. -/
theorem c5_witness :
    (on_mole_click startedState 1).pop_interval ≤ startedState.pop_interval ∧
    MIN_POP_INTERVAL ≤ (on_mole_click startedState 1).pop_interval ∧
    startedState.bomb_prob ≤ (on_mole_click startedState 1).bomb_prob ∧
    (on_mole_click startedState 1).bomb_prob ≤ BOMB_PROB_MAX :=
  c5_difficulty_curve startedState (on_mole_click startedState 1)
    (Reachable.start (initState 0 0) 0 (Reachable.init 0 0))
    (Relation.ReflTransGen.single (PlayStep.moleClick startedState 1))

/-- C6: highscore persistence failures are silently absorbed
(src/app.py lines 98-112): a missing file, a file the read of which raises,
or a file whose stripped content `int()` cannot parse all make
`_load_highscore` return 0, and `_save_highscore` leaves the in-memory game
state unchanged whatever the write outcome. -/
theorem c6_persistence_failures (p : String → Option ℤ) (body : String)
    (w : WriteOutcome) (s : GameState) :
    load_highscore p .missing = 0 ∧ load_highscore p .ioError = 0 ∧
    (p (if body.trim = "" then "0" else body.trim) = none →
      load_highscore p (.content body) = 0) ∧
    save_highscore w s = s := by
  refine ⟨rfl, rfl, ?_, rfl⟩
  intro h
  simp only [load_highscore, h, Option.getD_none]

/-- C6, witness: a parser that rejects everything (as `int()` rejects
"oops"), a failing write. -/
theorem c6_witness :
    load_highscore (fun _ => none) (.content "oops") = 0 ∧
    save_highscore .failure (initState 0 0) = initState 0 0 := by
  have h := c6_persistence_failures (fun _ => none) "oops" .failure (initState 0 0)
  exact ⟨h.2.2.1 rfl, h.2.2.2⟩

/-- C7: no mole is resolved twice — any id collected for removal during a
tick (aged out, src/app.py lines 447-448) is absent from the active mole set
the tick leaves behind, so it can contribute no further score change
(src/app.py lines 449-455, 287-301). -/
theorem c7_no_double_resolution (s : GameState) (e : TickEnv) (cid : ℕ)
    (hrun : s.running = true) (hp : s.paused = false)
    (hmem : cid ∈ aged_ids (pre_removal s e) e) :
    cid ∉ (game_loop s e).moles.map (fun m => m.id_canvas) := by
  rw [game_loop_main s e hrun hp]
  intro hin
  rcases List.mem_map.1 hin with ⟨m, hm, hid⟩
  rcases tick_end_moles_cases
      (tick_difficulty
        (process_removals (pre_removal s e) (aged_ids (pre_removal s e) e))
        e.now_t) with hml | hml
  · rw [hml] at hm
    cases hm
  · rw [hml, tick_difficulty_moles] at hm
    exact process_removals_not_mem _ _ cid hmem m hm hid

/-- C7, witness: the sample critter (id 1) ages out during the sample tick
and its id is gone from the resulting mole set. -/
theorem c7_witness :
    1 ∈ aged_ids (pre_removal sampleState sampleTickEnv) sampleTickEnv ∧
    1 ∉ (game_loop sampleState sampleTickEnv).moles.map (fun m => m.id_canvas) := by
  have hmem : 1 ∈ aged_ids (pre_removal sampleState sampleTickEnv) sampleTickEnv := by
    norm_num [aged_ids, pre_removal, tick_move, tick_spawn, tick_timers, move_mole,
      sampleState, sampleMole, sampleTickEnv, startedState, start_game, initState,
      spawn_mole, spawned_mole, dictInsert, clamp, MIN_POP_INTERVAL,
      INITIAL_POP_INTERVAL, WINDOW_W, WINDOW_H, MAX_ACTIVE]
  exact ⟨hmem, c7_no_double_resolution sampleState sampleTickEnv 1 rfl rfl hmem⟩

/-- C8: the score is never negative — both penalties clamp at zero
(src/app.py lines 313, 454), so every reachable state has `0 ≤ score`. -/
theorem c8_score_never_negative (s : GameState) (h : Reachable s) : 0 ≤ s.score :=
  (reachable_inv h).1

/-- C8, witness: a fresh game followed by a click. -/
theorem c8_witness : 0 ≤ (on_mole_click (start_game (initState 0 0) 0) 1).score :=
  c8_score_never_negative _
    (Reachable.moleClick _ 1 (Reachable.start _ 0 (Reachable.init 0 0)))

/-- C9: the active mole set never exceeds `MAX_ACTIVE` (8): `_spawn_mole` is
a no-op whenever 8 or more moles are active (src/app.py lines 250-251), and
every reachable state holds at most 8 moles. -/
theorem c9_max_active :
    (∀ (s : GameState) (e : SpawnEnv), MAX_ACTIVE ≤ s.moles.length →
      spawn_mole s e = s) ∧
    (∀ s : GameState, Reachable s → s.moles.length ≤ MAX_ACTIVE) :=
  ⟨spawn_mole_full, fun _ h => (reachable_inv h).2.1⟩

/-- C9, witness: spawning into a state already holding 8 moles changes
nothing; the initial state holds at most 8. -/
theorem c9_witness :
    MAX_ACTIVE ≤ fullState.moles.length ∧
    spawn_mole fullState sampleTickEnv.spawn = fullState ∧
    (initState 0 0).moles.length ≤ MAX_ACTIVE := by
  have hlen : MAX_ACTIVE ≤ fullState.moles.length := by
    simp [fullState, MAX_ACTIVE]
  exact ⟨hlen, c9_max_active.1 fullState sampleTickEnv.spawn hlen,
    c9_max_active.2 _ (Reachable.init 0 0)⟩

/-- C10: while the game is paused or not running, a click changes nothing —
both the mole-click handler and the background-click handler return the
state untouched (src/app.py lines 303-305, 350-353), so score, mole set,
spawn interval and bomb probability are all unchanged. -/
theorem c10_paused_click_noop (s : GameState) (cid : ℕ)
    (h : s.running = false ∨ s.paused = true) :
    on_mole_click s cid = s ∧ on_click s = s :=
  ⟨on_mole_click_guard s cid h, on_click_guard s h⟩

/-- C10, witness: clicks on the paused sample state. -/
theorem c10_witness :
    pausedState.paused = true ∧ on_mole_click pausedState 1 = pausedState ∧
    on_click pausedState = pausedState := by
  have h := c10_paused_click_noop pausedState 1 (Or.inr rfl)
  exact ⟨rfl, h.1, h.2⟩
